import Mathlib

/-!
# Verification of the generic-mobilenet architecture assembler

Shallow embedding of `src/genmobilenet/genmobilenet.py` (the `GenMobileNet`
module assembler, its per-model factory functions, and BN-parameter
resolution), together with the pieces of the repository's
`genmobilenet/mobilenet_builder.py` module that `genmobilenet.py` imports.
That module is not present in the source tree, so its definitions
(`round_channels`, the block-string decoder, the block builder, the BN
default constants) are modelled from the specification and marked as such
in their doc comments.

Machine floats in the source are modelled as exact rationals (`ℚ`); the
multipliers and ratios exercised here (1.0, 0.5, 6.0, 0.25, ...) are exact
in both representations.  Tensor contents are out of scope; shapes are
modelled as natural-number triples (channels, height, width).
-/

deriving instance DecidableEq for Except

/-- Rounding to the nearest integer, halves rounding up: `⌊q + 1/2⌋`. -/
def qround (q : ℚ) : ℤ :=
  Rat.floor (q + 1 / 2)

/-- Modelled from the spec: `round_channels` from the repository's
`mobilenet_builder` module (star-imported by `genmobilenet.py` but absent
from the source tree).  Spec §4.1: identity when the
multiplier is exactly 1.0; otherwise scale, round to the nearest multiple of
`divisor`, clip below by `minDepth` (defaulting to `divisor`), and add one
divisor step if the rounded value fell below 90% of the scaled target. -/
def round_channels (channels : ℕ) (multiplier : ℚ) (divisor : ℕ) (minDepth : Option ℕ) : ℕ :=
  if multiplier = 1 then channels
  else
    let minD : ℕ := minDepth.getD divisor
    let scaled : ℚ := (channels : ℚ) * multiplier
    let nearest : ℤ := (divisor : ℤ) * qround (scaled / (divisor : ℚ))
    let clipped : ℤ := max nearest (minD : ℤ)
    let result : ℤ := if (clipped : ℚ) < 9 / 10 * scaled then clipped + (divisor : ℤ) else clipped
    result.toNat

/-- Activation functions selectable in the source (`F.relu`, `F.relu6`,
`hard_swish`, `swish`); used as opaque tags, their numerics are out of scope. -/
inductive ActKind
  | relu
  | relu6
  | hardSwish
  | swish
deriving DecidableEq, Repr

/-- Squeeze-excite gate functions (`torch.sigmoid`, `hard_sigmoid`). -/
inductive GateKind
  | sigmoid
  | hardSigmoid
deriving DecidableEq, Repr

/-- Block kinds of the stage-string grammar: `ds`, `dsa`, `ir`, `cn`. -/
inductive BlockKind
  | ds
  | dsa
  | ir
  | cn
deriving DecidableEq, Repr

/-- Errors of the construction pipeline, named as in the spec (§7).  In the
Python source these surface as `AssertionError`/exceptions raised during
`GenMobileNet.__init__`; the `configurationMismatch` case corresponds to the
`assert in_chs == num_features` at `genmobilenet.py:92`. -/
inductive BuildError
  | malformedSpec
  | configurationMismatch
  | invalidChannel
  | evenKernel
deriving DecidableEq, Repr

/-- A parsed stage-string (spec §4.2 `BlockSpec`).  `expRat` is the
`e<expand_ratio>` field (`exp_ratio` in the source), `seRat` the optional
`se<ratio>` field (`se_ratio` in the source). -/
structure BlockSpec where
  kind : BlockKind
  kernel : ℕ
  stride : ℕ
  expRat : ℚ
  outChs : ℕ
  repeats : ℕ
  noSkip : Bool
  seRat : Option ℚ
  actOverride : Option ActKind
deriving DecidableEq, Repr

/-- Split a character list at every occurrence of `sep` (used for the
underscore-delimited token list and for decimal points). -/
def splitChar (sep : Char) : List Char → List (List Char)
  | [] => [[]]
  | c :: rest =>
    let r := splitChar sep rest
    if c = sep then [] :: r
    else
      match r with
      | [] => [[c]]
      | g :: gs => (c :: g) :: gs

/-- Decimal digit string to a natural number; `none` on empty input or a
non-digit character. -/
def parseNatChars (cs : List Char) : Option ℕ :=
  if cs.isEmpty then none
  else
    cs.foldl
      (fun acc c =>
        match acc with
        | none => none
        | some n => if c.isDigit then some (10 * n + (c.toNat - 48)) else none)
      (some 0)

/-- Decimal literal (`6`, `0.25`, `2.5`, ...) to an exact rational. -/
def parseRatChars (cs : List Char) : Option ℚ :=
  match splitChar '.' cs with
  | [i] => (parseNatChars i).map (fun n => (n : ℚ))
  | [i, f] =>
    match parseNatChars i, parseNatChars f with
    | some a, some b => some ((a : ℚ) + (b : ℚ) / ((10 : ℚ) ^ f.length))
    | _, _ => none
  | _ => none

/-- Accumulator for the token fold of the stage-string decoder. -/
structure TokenAcc where
  r : Option ℕ
  k : Option ℕ
  s : Option ℕ
  e : Option ℚ
  c : Option ℕ
  se : Option ℚ
  noSkip : Bool
  act : Option ActKind
deriving DecidableEq, Repr

/-- The empty token accumulator (all fields at their spec defaults). -/
def emptyAcc : TokenAcc :=
  ⟨none, none, none, none, none, none, false, none⟩

/-- Modelled from the spec: decoding of one underscore token of a stage
string (spec §4.2); the decoder itself lives in the absent
`mobilenet_builder` module.  Recognized tokens: the literal `noskip`,
`se<ratio>`, activation overrides, and the numeric fields `r`, `k`, `s`,
`e`, `c`.  The architecture tables in `genmobilenet.py` show activation
overrides carrying an `a` prefix (`are` in the MobileNet-V3 table), which
disambiguates them from the `r<repeats>` field, so the `a`-prefixed forms
are decoded here.  Unrecognized tokens yield `none`. -/
def decodeTok (acc : TokenAcc) (tok : List Char) : Option TokenAcc :=
  if tok = ['n', 'o', 's', 'k', 'i', 'p'] then some { acc with noSkip := true }
  else
    match tok with
    | 's' :: 'e' :: rest => (parseRatChars rest).map (fun q => { acc with se := some q })
    | 'a' :: rest =>
        if rest = ['r', 'e'] then some { acc with act := some ActKind.relu }
        else if rest = ['r', '6'] then some { acc with act := some ActKind.relu6 }
        else if rest = ['h', 's'] then some { acc with act := some ActKind.hardSwish }
        else if rest = ['s', 'w'] then some { acc with act := some ActKind.swish }
        else none
    | 'r' :: rest => (parseNatChars rest).map (fun n => { acc with r := some n })
    | 'k' :: rest => (parseNatChars rest).map (fun n => { acc with k := some n })
    | 's' :: rest => (parseNatChars rest).map (fun n => { acc with s := some n })
    | 'e' :: rest => (parseRatChars rest).map (fun q => { acc with e := some q })
    | 'c' :: rest => (parseNatChars rest).map (fun n => { acc with c := some n })
    | _ => none

/-- Modelled from the spec: the stage-string decoder of the absent
`mobilenet_builder` module (spec §4.2).  The first token selects the block
kind; the remaining tokens are folded through `decodeTok`; the `k` and `c`
fields are required; `stride`, `expand_ratio` and `repeats` default to 1. -/
def decodeBlockStr (s : String) : Except BuildError BlockSpec :=
  match splitChar '_' s.data with
  | [] => .error .malformedSpec
  | kindTok :: rest =>
    let kindOpt : Option BlockKind :=
      if kindTok = ['d', 's'] then some .ds
      else if kindTok = ['d', 's', 'a'] then some .dsa
      else if kindTok = ['i', 'r'] then some .ir
      else if kindTok = ['c', 'n'] then some .cn
      else none
    match kindOpt with
    | none => .error .malformedSpec
    | some kind =>
      match rest.foldl (fun a t => a.bind (fun acc => decodeTok acc t)) (some emptyAcc) with
      | none => .error .malformedSpec
      | some acc =>
        match acc.k, acc.c with
        | some k, some c =>
          .ok ⟨kind, k, acc.s.getD 1, acc.e.getD 1, c, acc.r.getD 1, acc.noSkip, acc.se, acc.act⟩
        | _, _ => .error .malformedSpec

/-- Decode a flat list of stage strings, failing on the first malformed one. -/
def decodeList : List String → Except BuildError (List BlockSpec)
  | [] => .ok []
  | s :: rest =>
    match decodeBlockStr s with
    | .error e => .error e
    | .ok sp =>
      match decodeList rest with
      | .error e => .error e
      | .ok sps => .ok (sp :: sps)

/-- Decode an architecture definition (a list of stages, each a list of
stage strings).  The stage structure is flattened, matching the builder's
strictly sequential consumption (spec §4.4). -/
def decodeArch (arch : List (List String)) : Except BuildError (List BlockSpec) :=
  decodeList (arch.foldr (fun stage acc => stage ++ acc) [])

/-- Global configuration threaded through the block builder
(`MobilenetBuilder.__init__` arguments; spec §3 `BuilderState`). -/
structure BuilderCfg where
  depthMultiplier : ℚ
  depthDivisor : ℕ
  minDepth : Option ℕ
  actFn : ActKind
  seGateFn : GateKind
  seReduceMid : Bool
  bnMomentum : ℚ
  bnEps : ℚ
  foldedBn : Bool
  paddingSame : Bool
deriving DecidableEq, Repr

/-- A constructed block (spec §3 `Block`): the structural data of one
depthwise-separable / inverted-residual / 1×1-conv block.  `midChs` is the
expanded channel count of an inverted-residual block (equal to `inChs` for
the other kinds). -/
structure Blk where
  kind : BlockKind
  inChs : ℕ
  midChs : ℕ
  outChs : ℕ
  kernel : ℕ
  stride : ℕ
  hasResidual : Bool
  seRat : Option ℚ
deriving DecidableEq, Repr

/-- Modelled from the spec: the Block Factory of the absent
`mobilenet_builder` module (spec §4.3).  Resolves the output channel count,
computes the inverted-residual expansion width, decides residual-skip
eligibility (stride 1, matching channels, `noskip` unset; `cn` never), and
fails fast on non-positive channel counts or an even kernel outside the
TF same-padding mode. -/
def makeBlock (cfg : BuilderCfg) (spec : BlockSpec) (inChs stride : ℕ) : Except BuildError Blk :=
  if inChs = 0 then .error .invalidChannel
  else if (spec.kernel % 2 == 0) && !cfg.paddingSame then .error .evenKernel
  else
    let outChs := round_channels spec.outChs cfg.depthMultiplier cfg.depthDivisor cfg.minDepth
    if outChs = 0 then .error .invalidChannel
    else
      let midChs : ℕ :=
        match spec.kind with
        | .ir => (qround ((inChs : ℚ) * spec.expRat)).toNat
        | _ => inChs
      let residual : Bool :=
        match spec.kind with
        | .cn => false
        | _ => (stride == 1) && (inChs == outChs) && !spec.noSkip
      .ok ⟨spec.kind, inChs, midChs, outChs, spec.kernel, stride, residual, spec.seRat⟩

/-- Modelled from the spec: repeat expansion (spec §4.4).  A spec with
`repeats = r` yields `r` instances; only the first carries the spec's
stride, all later repeats use stride 1. -/
def expandRepeats (spec : BlockSpec) : List (BlockSpec × ℕ) :=
  (List.range spec.repeats).map (fun i => (spec, if i = 0 then spec.stride else 1))

/-- Expand every decoded spec in order into (spec, stride) instances. -/
def flattenSpecs (specs : List BlockSpec) : List (BlockSpec × ℕ) :=
  specs.foldr (fun sp acc => expandRepeats sp ++ acc) []

/-- Modelled from the spec: the Network Builder loop (spec §4.4), threading
the running input-channel count through every constructed block and
returning the flat block list together with the final output channels. -/
def buildBlocksGo (cfg : BuilderCfg) : List (BlockSpec × ℕ) → ℕ → Except BuildError (List Blk × ℕ)
  | [], chs => .ok ([], chs)
  | (sp, st) :: rest, chs =>
    match makeBlock cfg sp chs st with
    | .error e => .error e
    | .ok b =>
      match buildBlocksGo cfg rest b.outChs with
      | .error e => .error e
      | .ok (bs, out) => .ok (b :: bs, out)

/-- Weight-initialization policy selector (`weight_init='goog'` vs
`'default'` in `GenMobileNet.__init__`). -/
inductive WeightInit
  | goog
  | default
deriving DecidableEq, Repr

/-- The keyword arguments of `GenMobileNet.__init__`
(`genmobilenet.py:66-70`), with floats as exact rationals and the
`head_conv` argument as `Option String` (`none` models Python `None`). -/
structure GenMobileNetCfg where
  blockArgs : List (List String)
  numClasses : ℕ
  inChans : ℕ
  stemSize : ℕ
  numFeatures : ℕ
  depthMultiplier : ℚ
  depthDivisor : ℕ
  minDepth : Option ℕ
  bnMomentum : ℚ
  bnEps : ℚ
  dropRate : ℚ
  actFn : ActKind
  seGateFn : GateKind
  seReduceMid : Bool
  headConv : Option String
  weightInit : WeightInit
  foldedBn : Bool
  paddingSame : Bool
deriving DecidableEq, Repr

/-- Structural data of a 2-D convolution module as constructed by the
assembler (`sconv2d` call sites in `genmobilenet.py`).  `padding` is the
symmetric padding argument; the TF `padding_same` string mode is not
exercised by any claim and is tracked only through the configuration flag. -/
structure ConvCfg where
  inChs : ℕ
  outChs : ℕ
  kernel : ℕ
  stride : ℕ
  padding : ℕ
  bias : Bool
deriving DecidableEq, Repr

/-- Structural data of a `nn.BatchNorm2d` module. -/
structure BnCfg where
  features : ℕ
  momentum : ℚ
  eps : ℚ
deriving DecidableEq, Repr

/-- The assembled `GenMobileNet` model: stem convolution, optional stem
batch-norm, flat block sequence, head policy outcome, optional head
convolution and batch-norm, and the classifier dimensions
(`GenMobileNet.__init__`, `genmobilenet.py:66-107`).  In the `'none'` head
branch the Python object never assigns `self.bn2`; it is modelled as
`none` there (it is never read on that path). -/
structure GenMobileNet where
  convStem : ConvCfg
  bn1 : Option BnCfg
  blocks : List Blk
  bodyOutChs : ℕ
  efficientHead : Bool
  convHead : Option ConvCfg
  bn2 : Option BnCfg
  classifierInF : ℕ
  classifierOutF : ℕ
  dropRate : ℚ
deriving DecidableEq, Repr

/-- The builder configuration extracted from the constructor arguments
(`genmobilenet.py:82-85`). -/
def builderCfgOf (cfg : GenMobileNetCfg) : BuilderCfg :=
  ⟨cfg.depthMultiplier, cfg.depthDivisor, cfg.minDepth, cfg.actFn, cfg.seGateFn,
    cfg.seReduceMid, cfg.bnMomentum, cfg.bnEps, cfg.foldedBn, cfg.paddingSame⟩

/-- Stem output channels: `round_channels(stem_size, depth_multiplier,
depth_divisor, min_depth)` (`genmobilenet.py:75`). -/
def stemChs (cfg : GenMobileNetCfg) : ℕ :=
  round_channels cfg.stemSize cfg.depthMultiplier cfg.depthDivisor cfg.minDepth

/-- The head-policy test of `genmobilenet.py:89`:
`if not head_conv or head_conv == 'none'`.  Python `None` and the empty
string are falsy, so they select the no-head policy exactly like the
literal `'none'`. -/
def noHeadPolicy : Option String → Bool
  | none => true
  | some s => s == "" || s == "none"

/-- Head selection and final model record (`genmobilenet.py:75-101`):
stem convolution (kernel 3, stride 2, padding 1, bias iff folded-BN), stem
batch-norm unless folded, then the three head policies.  The head
convolution is 1×1 with `bias = folded_bn and not efficient_head`
(`genmobilenet.py:97`); `bn2` exists only when neither folded-BN nor the
efficient head is selected (`genmobilenet.py:98`). -/
def assembleHead (cfg : GenMobileNetCfg) (blocks : List Blk) (bodyChs : ℕ) :
    Except BuildError GenMobileNet :=
  let sChs := stemChs cfg
  let convStem : ConvCfg := ⟨cfg.inChans, sChs, 3, 2, 1, cfg.foldedBn⟩
  let bn1 : Option BnCfg :=
    if cfg.foldedBn then none else some ⟨sChs, cfg.bnMomentum, cfg.bnEps⟩
  if noHeadPolicy cfg.headConv then
    if bodyChs = cfg.numFeatures then
      .ok ⟨convStem, bn1, blocks, bodyChs, false, none, none,
        cfg.numFeatures, cfg.numClasses, cfg.dropRate⟩
    else .error .configurationMismatch
  else
    let effHead : Bool := cfg.headConv == some "efficient"
    .ok ⟨convStem, bn1, blocks, bodyChs, effHead,
      some ⟨bodyChs, cfg.numFeatures, 1, 1, 0, cfg.foldedBn && !effHead⟩,
      (if cfg.foldedBn || effHead then none else some ⟨cfg.numFeatures, cfg.bnMomentum, cfg.bnEps⟩),
      cfg.numFeatures, cfg.numClasses, cfg.dropRate⟩

/-- `GenMobileNet.__init__` (`genmobilenet.py:66-107`): decode the
architecture definition, run the block builder from the stem channels, and
assemble stem/head/classifier.  Failures (malformed stage string, channel
mismatch under the no-head policy, invalid channels) happen here, at
construction time. -/
def GenMobileNet.init (cfg : GenMobileNetCfg) : Except BuildError GenMobileNet :=
  match decodeArch cfg.blockArgs with
  | .error e => .error e
  | .ok specs =>
    match buildBlocksGo (builderCfgOf cfg) (flattenSpecs specs) (stemChs cfg) with
    | .error e => .error e
    | .ok (blocks, bodyChs) => assembleHead cfg blocks bodyChs

/-- Modelled from the spec: the framework default batch-norm momentum
(`BN_MOMENTUM_DEFAULT` exported by the absent `mobilenet_builder` module;
the framework default momentum of `nn.BatchNorm2d` is 0.1). -/
def BN_MOMENTUM_DEFAULT : ℚ := 1 / 10

/-- Modelled from the spec: the framework default batch-norm epsilon
(`BN_EPS_DEFAULT` exported by the absent `mobilenet_builder` module; the
framework default eps of `nn.BatchNorm2d` is 1e-5). -/
def BN_EPS_DEFAULT : ℚ := 1 / 100000

/-- `_BN_MOMENTUM_TF_DEFAULT = 1 - 0.99` (`genmobilenet.py:142`). -/
def _BN_MOMENTUM_TF_DEFAULT : ℚ := 1 - 99 / 100

/-- `_BN_EPS_TF_DEFAULT = 1e-3` (`genmobilenet.py:143`). -/
def _BN_EPS_TF_DEFAULT : ℚ := 1 / 1000

/-- `_resolve_bn_params` (`genmobilenet.py:146-160`): choose the TF
defaults when `bn_tf` is set, then let explicitly supplied values
(`some _`) override the chosen default. -/
def _resolve_bn_params (bnTf : Bool) (bnMomentum bnEps : Option ℚ) : ℚ × ℚ :=
  let bnMomentumDefault := if bnTf then _BN_MOMENTUM_TF_DEFAULT else BN_MOMENTUM_DEFAULT
  let bnEpsDefault := if bnTf then _BN_EPS_TF_DEFAULT else BN_EPS_DEFAULT
  (bnMomentum.getD bnMomentumDefault, bnEps.getD bnEpsDefault)

/-- The constructor defaults of `GenMobileNet.__init__`
(`genmobilenet.py:66-70`): 1000 classes, 3 input channels, stem 32,
1280 features, multiplier 1, divisor 8, no minimum depth, framework BN
defaults, no dropout, relu, sigmoid gate, `head_conv='default'`,
`weight_init='goog'`, no folded BN, no TF padding. -/
def defaultCfg (blockArgs : List (List String)) : GenMobileNetCfg :=
  ⟨blockArgs, 1000, 3, 32, 1280, 1, 8, none, BN_MOMENTUM_DEFAULT, BN_EPS_DEFAULT, 0,
    ActKind.relu, GateKind.sigmoid, false, some "default", WeightInit.goog, false, false⟩

/-- Layer kinds appearing in the forward feature pipeline
(`GenMobileNet.features`, `genmobilenet.py:109-127`). -/
inductive LayerOp
  | conv
  | bn
  | act
  | blocks
  | pool
deriving DecidableEq, Repr

/-- The stem part of `GenMobileNet.features` (`genmobilenet.py:110-113`):
stem convolution, batch-norm only when `bn1` exists, then activation. -/
def GenMobileNet.stemOps (m : GenMobileNet) : List LayerOp :=
  [LayerOp.conv] ++ (match m.bn1 with | some _ => [LayerOp.bn] | none => []) ++ [LayerOp.act]

/-- The head part of `GenMobileNet.features` (`genmobilenet.py:115-126`):
in efficient mode pool → head conv → activation (no batch-norm); otherwise
head conv (if present) → `bn2` (if present) → activation, then pool. -/
def GenMobileNet.headOps (m : GenMobileNet) : List LayerOp :=
  if m.efficientHead then [LayerOp.pool, LayerOp.conv, LayerOp.act]
  else
    (match m.convHead with
      | some _ =>
        [LayerOp.conv] ++ (match m.bn2 with | some _ => [LayerOp.bn] | none => []) ++ [LayerOp.act]
      | none => []) ++ [LayerOp.pool]

/-- The full feature pipeline of `GenMobileNet.features`. -/
def GenMobileNet.featuresOps (m : GenMobileNet) : List LayerOp :=
  m.stemOps ++ [LayerOp.blocks] ++ m.headOps

/-- Output length of one spatial dimension of a 2-D convolution with
symmetric padding: `(h + 2p - k) / s + 1`, defined only when the padded
input covers the kernel and the stride is positive. -/
def convOutDim (h k s p : ℕ) : Option ℕ :=
  if k ≤ h + 2 * p ∧ 1 ≤ s then some ((h + 2 * p - k) / s + 1) else none

/-- Shape action of a convolution on a (channels, height, width) triple:
requires the input channel count to match. -/
def convShape (inC outC k s p : ℕ) (x : ℕ × ℕ × ℕ) : Option (ℕ × ℕ × ℕ) :=
  if x.1 = inC then
    match convOutDim x.2.1 k s p, convOutDim x.2.2 k s p with
    | some h, some w => some (outC, h, w)
    | _, _ => none
  else none

/-- Shape action of an optional batch-norm layer (identity on shape, but
`nn.BatchNorm2d` requires the channel count it was constructed with). -/
def bnShape (bn : Option BnCfg) (x : ℕ × ℕ × ℕ) : Option (ℕ × ℕ × ℕ) :=
  match bn with
  | none => some x
  | some b => if x.1 = b.features then some x else none

/-- Shape action of `F.adaptive_avg_pool2d(x, 1)`: collapses a nonempty
spatial extent to 1×1. -/
def poolShape (x : ℕ × ℕ × ℕ) : Option (ℕ × ℕ × ℕ) :=
  if 1 ≤ x.2.1 ∧ 1 ≤ x.2.2 then some (x.1, 1, 1) else none

/-- Shape action of one constructed block: the sequence of convolutions it
contains (spec §4.3).  Depthwise-separable: depthwise (kernel, stride,
padding `k/2`) then pointwise projection; inverted-residual: pointwise
expansion to `midChs`, depthwise, pointwise projection; `cn`: a single
convolution.  Squeeze-excite, batch-norm and activation are shape-neutral.
A residual add, when present, requires stride 1 and equal channels and is
therefore also shape-neutral. -/
def Blk.shape (b : Blk) (x : ℕ × ℕ × ℕ) : Option (ℕ × ℕ × ℕ) :=
  match b.kind with
  | .ds | .dsa =>
    (convShape b.inChs b.inChs b.kernel b.stride (b.kernel / 2) x).bind
      (convShape b.inChs b.outChs 1 1 0)
  | .ir =>
    (convShape b.inChs b.midChs 1 1 0 x).bind (fun y =>
      (convShape b.midChs b.midChs b.kernel b.stride (b.kernel / 2) y).bind
        (convShape b.midChs b.outChs 1 1 0))
  | .cn => convShape b.inChs b.outChs b.kernel b.stride (b.kernel / 2) x

/-- Shape action of the sequential block body (`self.blocks(x)`). -/
def bodyShape : List Blk → ℕ × ℕ × ℕ → Option (ℕ × ℕ × ℕ)
  | [], x => some x
  | b :: bs, x => (b.shape x).bind (bodyShape bs)

/-- Shape action of the head part of `GenMobileNet.features`
(`genmobilenet.py:115-126`): efficient mode pools first and then applies
the head convolution; otherwise the head convolution (when present) and
`bn2` (when present) run before pooling. -/
def headShape (m : GenMobileNet) (x3 : ℕ × ℕ × ℕ) : Option (ℕ × ℕ × ℕ) :=
  if m.efficientHead then
    (poolShape x3).bind (fun x4 =>
      match m.convHead with
      | some cv => convShape cv.inChs cv.outChs cv.kernel cv.stride cv.padding x4
      | none => none)
  else
    match m.convHead with
    | some cv =>
      ((convShape cv.inChs cv.outChs cv.kernel cv.stride cv.padding x3).bind
        (bnShape m.bn2)).bind poolShape
    | none => poolShape x3

/-- Shape action of `GenMobileNet.features` (`genmobilenet.py:109-127`):
stem conv → optional bn1 → activation → blocks → head (per policy). -/
def featuresShape (m : GenMobileNet) (x : ℕ × ℕ × ℕ) : Option (ℕ × ℕ × ℕ) :=
  (convShape m.convStem.inChs m.convStem.outChs m.convStem.kernel m.convStem.stride
      m.convStem.padding x).bind (fun x1 =>
    (bnShape m.bn1 x1).bind (fun x2 =>
      (bodyShape m.blocks x2).bind (headShape m)))

/-- Shape action of `GenMobileNet.forward` (`genmobilenet.py:129-134`) on a
batched input `[n, c, h, w]`: features, flatten (`x.view(x.size(0), -1)`),
dropout (shape-neutral), then the linear classifier, which requires the
flattened feature count to equal its input dimension and returns
`[n, num_classes]`. -/
def forwardShape (m : GenMobileNet) (n c h w : ℕ) : Option (ℕ × ℕ) :=
  (featuresShape m (c, h, w)).bind (fun y =>
    if y.1 * y.2.1 * y.2.2 = m.classifierInF then some (n, m.classifierOutF) else none)

/-- Number of randomly initialized weight tensors in one block: its
convolutions, plus the two squeeze-excite convolutions when present
(`_initialize_weight_goog` draws a fresh normal sample for every
`nn.Conv2d`; batch-norm and bias initializations are constant). -/
def Blk.randTensors (b : Blk) : ℕ :=
  (match b.kind with
    | .ds | .dsa => 2
    | .ir => 3
    | .cn => 1) +
  (match b.seRat with | some _ => 2 | none => 0)

/-- Number of randomly initialized weight tensors of the whole model: stem
conv, every block's convs, the head conv when present, and the classifier
(`genmobilenet.py:103-107` with `_initialize_weight_goog`,
`genmobilenet.py:163-178`). -/
def GenMobileNet.randTensorCount (m : GenMobileNet) : ℕ :=
  1 + (m.blocks.map Blk.randTensors).sum +
    (match m.convHead with | some _ => 1 | none => 0) + 1

/-- Construction including random weight allocation: the structural build
(`GenMobileNet.init`) followed by drawing one sample per random weight
tensor from the framework RNG stream `rng`.  The architecture does not
consult the stream; only the weight values do. -/
def GenMobileNet.build (cfg : GenMobileNetCfg) (rng : ℕ → ℤ) :
    Except BuildError (GenMobileNet × List ℤ) :=
  match GenMobileNet.init cfg with
  | .error e => .error e
  | .ok m => .ok (m, (List.range m.randTensorCount).map rng)

/-- `true` iff construction succeeded. -/
def exceptOk (x : Except BuildError (GenMobileNet × List ℤ)) : Bool :=
  match x with
  | .ok _ => true
  | .error _ => false

/-- The architecture part of a build result, discarding weights. -/
def builtArch (x : Except BuildError (GenMobileNet × List ℤ)) : Option GenMobileNet :=
  match x with
  | .ok p => some p.1
  | .error _ => none

/-- The error part of a build result. -/
def builtErr (x : Except BuildError (GenMobileNet × List ℤ)) : Option BuildError :=
  match x with
  | .ok _ => none
  | .error e => some e

/-- MNASNet-A1 architecture table (`_gen_mnasnet_a1`, `genmobilenet.py:200-215`). -/
def mnasnetA1Arch : List (List String) :=
  [["ds_r1_k3_s1_e1_c16_noskip"],
   ["ir_r2_k3_s2_e6_c24"],
   ["ir_r3_k5_s2_e3_c40_se0.25"],
   ["ir_r4_k3_s2_e6_c80"],
   ["ir_r2_k3_s1_e6_c112_se0.25"],
   ["ir_r3_k5_s2_e6_c160_se0.25"],
   ["ir_r1_k3_s1_e6_c320"]]

/-- MNASNet-B1 architecture table (`_gen_mnasnet_b1`, `genmobilenet.py:240-255`). -/
def mnasnetB1Arch : List (List String) :=
  [["ds_r1_k3_s1_c16_noskip"],
   ["ir_r3_k3_s2_e3_c24"],
   ["ir_r3_k5_s2_e3_c40"],
   ["ir_r3_k5_s2_e6_c80"],
   ["ir_r2_k3_s1_e6_c96"],
   ["ir_r4_k5_s2_e6_c192"],
   ["ir_r1_k3_s1_e6_c320_noskip"]]

/-- MNASNet-Small architecture table (`_gen_mnasnet_small`, `genmobilenet.py:280-288`). -/
def mnasnetSmallArch : List (List String) :=
  [["ds_r1_k3_s1_c8"],
   ["ir_r1_k3_s2_e3_c16"],
   ["ir_r2_k3_s2_e6_c16"],
   ["ir_r4_k5_s2_e6_c32_se0.25"],
   ["ir_r3_k3_s1_e6_c32_se0.25"],
   ["ir_r3_k5_s2_e6_c88_se0.25"],
   ["ir_r1_k3_s1_e6_c144"]]

/-- MobileNet-V1 architecture table (`_gen_mobilenet_v1`, `genmobilenet.py:309-315`). -/
def mobilenetV1Arch : List (List String) :=
  [["dsa_r1_k3_s1_c64"],
   ["dsa_r2_k3_s2_c128"],
   ["dsa_r2_k3_s2_c256"],
   ["dsa_r6_k3_s2_c512"],
   ["dsa_r2_k3_s2_c1024"]]

/-- MobileNet-V2 architecture table (`_gen_mobilenet_v2`, `genmobilenet.py:339-347`). -/
def mobilenetV2Arch : List (List String) :=
  [["ds_r1_k3_s1_c16"],
   ["ir_r2_k3_s2_e6_c24"],
   ["ir_r3_k3_s2_e6_c32"],
   ["ir_r4_k3_s2_e6_c64"],
   ["ir_r3_k3_s1_e6_c96"],
   ["ir_r3_k3_s2_e6_c160"],
   ["ir_r1_k3_s1_e6_c320"]]

/-- MobileNet-V3 architecture table (`_gen_mobilenet_v3`, `genmobilenet.py:373-392`). -/
def mobilenetV3Arch : List (List String) :=
  [["ds_r1_k3_s1_e1_c16_are_noskip"],
   ["ir_r1_k3_s2_e4_c24_are", "ir_r1_k3_s1_e3_c24_are"],
   ["ir_r3_k5_s2_e3_c40_se0.25_are"],
   ["ir_r1_k3_s2_e6_c80", "ir_r1_k3_s1_e2.5_c80", "ir_r2_k3_s1_e2.3_c80"],
   ["ir_r2_k3_s1_e6_c112_se0.25"],
   ["ir_r1_k5_s2_e6_c160_se0.25", "ir_r1_k5_s1_e6_c160_se0.25", "ir_r1_k5_s1_e6_c160_se0.25"],
   ["cn_r1_k1_s1_c960"]]

/-- ChamNet-V1 architecture table (`_gen_chamnet_v1`, `genmobilenet.py:420-428`). -/
def chamnetV1Arch : List (List String) :=
  [["ir_r1_k3_s1_e1_c24"],
   ["ir_r2_k7_s2_e4_c48"],
   ["ir_r5_k3_s2_e7_c64"],
   ["ir_r7_k5_s2_e12_c56"],
   ["ir_r5_k3_s1_e8_c88"],
   ["ir_r4_k3_s2_e7_c152"],
   ["ir_r1_k3_s1_e10_c104"]]

/-- ChamNet-V2 architecture table (`_gen_chamnet_v2`, `genmobilenet.py:453-461`). -/
def chamnetV2Arch : List (List String) :=
  [["ir_r1_k3_s1_e1_c24"],
   ["ir_r4_k5_s2_e8_c32"],
   ["ir_r6_k7_s2_e5_c48"],
   ["ir_r3_k5_s2_e9_c56"],
   ["ir_r6_k3_s1_e6_c56"],
   ["ir_r6_k3_s2_e2_c152"],
   ["ir_r1_k3_s1_e6_c112"]]

/-- FBNet-C architecture table (`_gen_fbnetc`, `genmobilenet.py:487-495`). -/
def fbnetcArch : List (List String) :=
  [["ir_r1_k3_s1_e1_c16"],
   ["ir_r1_k3_s2_e6_c24", "ir_r2_k3_s1_e1_c24"],
   ["ir_r1_k5_s2_e6_c32", "ir_r1_k5_s1_e3_c32", "ir_r1_k5_s1_e6_c32", "ir_r1_k3_s1_e6_c32"],
   ["ir_r1_k5_s2_e6_c64", "ir_r1_k5_s1_e3_c64", "ir_r2_k5_s1_e6_c64"],
   ["ir_r3_k5_s1_e6_c112", "ir_r1_k5_s1_e3_c112"],
   ["ir_r4_k5_s2_e6_c184"],
   ["ir_r1_k3_s1_e6_c352"]]

/-- Single-Path-NAS architecture table (`_gen_spnasnet`, `genmobilenet.py:520-535`). -/
def spnasnetArch : List (List String) :=
  [["ds_r1_k3_s1_c16_noskip"],
   ["ir_r3_k3_s2_e3_c24"],
   ["ir_r1_k5_s2_e6_c40", "ir_r3_k3_s1_e3_c40"],
   ["ir_r1_k5_s2_e6_c80", "ir_r3_k3_s1_e3_c80"],
   ["ir_r1_k5_s1_e6_c96", "ir_r3_k5_s1_e3_c96"],
   ["ir_r4_k5_s2_e6_c192"],
   ["ir_r1_k3_s1_e6_c320_noskip"]]

/-- Configuration built by `_gen_mnasnet_a1` (`genmobilenet.py:191-228`). -/
def mnasnetA1Cfg (depthMultiplier : ℚ) (numClasses : ℕ) : GenMobileNetCfg :=
  let bn := _resolve_bn_params false none none
  { defaultCfg mnasnetA1Arch with
      numClasses := numClasses, stemSize := 32, depthMultiplier := depthMultiplier,
      depthDivisor := 8, minDepth := none, bnMomentum := bn.1, bnEps := bn.2 }

/-- Configuration built by `_gen_mnasnet_b1` (`genmobilenet.py:231-268`). -/
def mnasnetB1Cfg (depthMultiplier : ℚ) (numClasses : ℕ) : GenMobileNetCfg :=
  let bn := _resolve_bn_params false none none
  { defaultCfg mnasnetB1Arch with
      numClasses := numClasses, stemSize := 32, depthMultiplier := depthMultiplier,
      depthDivisor := 8, minDepth := none, bnMomentum := bn.1, bnEps := bn.2 }

/-- Configuration built by `_gen_mnasnet_small` (`genmobilenet.py:271-301`). -/
def mnasnetSmallCfg (depthMultiplier : ℚ) (numClasses : ℕ) : GenMobileNetCfg :=
  let bn := _resolve_bn_params false none none
  { defaultCfg mnasnetSmallArch with
      numClasses := numClasses, stemSize := 8, depthMultiplier := depthMultiplier,
      depthDivisor := 8, minDepth := none, bnMomentum := bn.1, bnEps := bn.2 }

/-- Configuration built by `_gen_mobilenet_v1` (`genmobilenet.py:304-331`):
stem 32, 1024 features, relu6, `head_conv='none'`. -/
def mobilenetV1Cfg (depthMultiplier : ℚ) (numClasses : ℕ) : GenMobileNetCfg :=
  let bn := _resolve_bn_params false none none
  { defaultCfg mobilenetV1Arch with
      numClasses := numClasses, stemSize := 32, numFeatures := 1024,
      depthMultiplier := depthMultiplier, depthDivisor := 8, minDepth := none,
      bnMomentum := bn.1, bnEps := bn.2, actFn := ActKind.relu6,
      headConv := some "none" }

/-- Configuration built by `_gen_mobilenet_v2` (`genmobilenet.py:334-361`):
stem 32, default 1280 features, relu6, default head. -/
def mobilenetV2Cfg (depthMultiplier : ℚ) (numClasses : ℕ) : GenMobileNetCfg :=
  let bn := _resolve_bn_params false none none
  { defaultCfg mobilenetV2Arch with
      numClasses := numClasses, stemSize := 32, depthMultiplier := depthMultiplier,
      depthDivisor := 8, minDepth := none, bnMomentum := bn.1, bnEps := bn.2,
      actFn := ActKind.relu6 }

/-- Configuration built by `_gen_mobilenet_v3` (`genmobilenet.py:364-409`):
stem 16, hard-swish, hard-sigmoid gate, SE reduction from mid channels,
efficient head. -/
def mobilenetV3Cfg (depthMultiplier : ℚ) (numClasses inChans : ℕ) : GenMobileNetCfg :=
  let bn := _resolve_bn_params false none none
  { defaultCfg mobilenetV3Arch with
      numClasses := numClasses, inChans := inChans, stemSize := 16,
      depthMultiplier := depthMultiplier, depthDivisor := 8, minDepth := none,
      bnMomentum := bn.1, bnEps := bn.2, actFn := ActKind.hardSwish,
      seGateFn := GateKind.hardSigmoid, seReduceMid := true,
      headConv := some "efficient" }

/-- Configuration built by `_gen_chamnet_v1` (`genmobilenet.py:412-442`). -/
def chamnetV1Cfg (depthMultiplier : ℚ) (numClasses : ℕ) : GenMobileNetCfg :=
  let bn := _resolve_bn_params false none none
  { defaultCfg chamnetV1Arch with
      numClasses := numClasses, stemSize := 32, numFeatures := 1280,
      depthMultiplier := depthMultiplier, depthDivisor := 8, minDepth := none,
      bnMomentum := bn.1, bnEps := bn.2 }

/-- Configuration built by `_gen_chamnet_v2` (`genmobilenet.py:445-475`). -/
def chamnetV2Cfg (depthMultiplier : ℚ) (numClasses : ℕ) : GenMobileNetCfg :=
  let bn := _resolve_bn_params false none none
  { defaultCfg chamnetV2Arch with
      numClasses := numClasses, stemSize := 32, numFeatures := 1280,
      depthMultiplier := depthMultiplier, depthDivisor := 8, minDepth := none,
      bnMomentum := bn.1, bnEps := bn.2 }

/-- Configuration built by `_gen_fbnetc` (`genmobilenet.py:478-509`):
stem 16, 1984 features. -/
def fbnetcCfg (depthMultiplier : ℚ) (numClasses : ℕ) : GenMobileNetCfg :=
  let bn := _resolve_bn_params false none none
  { defaultCfg fbnetcArch with
      numClasses := numClasses, stemSize := 16, numFeatures := 1984,
      depthMultiplier := depthMultiplier, depthDivisor := 8, minDepth := none,
      bnMomentum := bn.1, bnEps := bn.2 }

/-- Configuration built by `_gen_spnasnet` (`genmobilenet.py:512-548`). -/
def spnasnetCfg (depthMultiplier : ℚ) (numClasses : ℕ) : GenMobileNetCfg :=
  let bn := _resolve_bn_params false none none
  { defaultCfg spnasnetArch with
      numClasses := numClasses, stemSize := 32, depthMultiplier := depthMultiplier,
      depthDivisor := 8, minDepth := none, bnMomentum := bn.1, bnEps := bn.2 }

/-- `_gen_mobilenet_v2` as a model constructor. -/
def _gen_mobilenet_v2 (depthMultiplier : ℚ) (numClasses : ℕ) : Except BuildError GenMobileNet :=
  GenMobileNet.init (mobilenetV2Cfg depthMultiplier numClasses)

/-- Result of one public factory call: the constructed model (or the
construction error) and whether the factory invoked the pretrained-weight
loading path (`model.load_state_dict(load_state_dict_from_url(...))`)
before returning. -/
structure FactoryOut where
  result : Except BuildError GenMobileNet
  loadedPretrained : Bool
deriving Repr

/-- `mnasnet_050` (`genmobilenet.py:551-556`): loads when `pretrained`. -/
def mnasnet_050 (pretrained : Bool) : FactoryOut :=
  ⟨GenMobileNet.init (mnasnetB1Cfg (1 / 2) 1000), pretrained⟩

/-- `mnasnet_075` (`genmobilenet.py:559-564`): loads when `pretrained`. -/
def mnasnet_075 (pretrained : Bool) : FactoryOut :=
  ⟨GenMobileNet.init (mnasnetB1Cfg (3 / 4) 1000), pretrained⟩

/-- `mnasnet_100` (`genmobilenet.py:567-572`): loads when `pretrained`. -/
def mnasnet_100 (pretrained : Bool) : FactoryOut :=
  ⟨GenMobileNet.init (mnasnetB1Cfg 1 1000), pretrained⟩

/-- `tflite_mnasnet_100` (`genmobilenet.py:575-583`): forces folded BN and
TF same padding; loads when `pretrained`. -/
def tflite_mnasnet_100 (pretrained : Bool) : FactoryOut :=
  ⟨GenMobileNet.init { mnasnetB1Cfg 1 1000 with foldedBn := true, paddingSame := true },
    pretrained⟩

/-- `mnasnet_140` (`genmobilenet.py:586-591`): loads when `pretrained`. -/
def mnasnet_140 (pretrained : Bool) : FactoryOut :=
  ⟨GenMobileNet.init (mnasnetB1Cfg (7 / 5) 1000), pretrained⟩

/-- `semnasnet_050` (`genmobilenet.py:594-599`): loads when `pretrained`. -/
def semnasnet_050 (pretrained : Bool) : FactoryOut :=
  ⟨GenMobileNet.init (mnasnetA1Cfg (1 / 2) 1000), pretrained⟩

/-- `semnasnet_075` (`genmobilenet.py:602-607`): loads when `pretrained`. -/
def semnasnet_075 (pretrained : Bool) : FactoryOut :=
  ⟨GenMobileNet.init (mnasnetA1Cfg (3 / 4) 1000), pretrained⟩

/-- `semnasnet_100` (`genmobilenet.py:610-615`): loads when `pretrained`. -/
def semnasnet_100 (pretrained : Bool) : FactoryOut :=
  ⟨GenMobileNet.init (mnasnetA1Cfg 1 1000), pretrained⟩

/-- `tflite_semnasnet_100` (`genmobilenet.py:618-626`): forces folded BN
and TF same padding; loads when `pretrained`. -/
def tflite_semnasnet_100 (pretrained : Bool) : FactoryOut :=
  ⟨GenMobileNet.init { mnasnetA1Cfg 1 1000 with foldedBn := true, paddingSame := true },
    pretrained⟩

/-- `semnasnet_140` (`genmobilenet.py:629-634`): loads when `pretrained`. -/
def semnasnet_140 (pretrained : Bool) : FactoryOut :=
  ⟨GenMobileNet.init (mnasnetA1Cfg (7 / 5) 1000), pretrained⟩

/-- `mnasnet_small` (`genmobilenet.py:637-642`): loads when `pretrained`. -/
def mnasnet_small (pretrained : Bool) : FactoryOut :=
  ⟨GenMobileNet.init (mnasnetSmallCfg 1 1000), pretrained⟩

/-- `mobilenetv1_100` (`genmobilenet.py:645-650`): the loading branch is
commented out in the source, so the flag is accepted but never acted on. -/
def mobilenetv1_100 (pretrained : Bool) : FactoryOut :=
  ⟨GenMobileNet.init (mobilenetV1Cfg 1 1000), false⟩

/-- `mobilenetv2_100` (`genmobilenet.py:653-658`): the loading branch is
commented out in the source, so the flag is accepted but never acted on. -/
def mobilenetv2_100 (pretrained : Bool) : FactoryOut :=
  ⟨_gen_mobilenet_v2 1 1000, false⟩

/-- `mobilenetv3_050` (`genmobilenet.py:661-666`): loading commented out. -/
def mobilenetv3_050 (numClasses inChans : ℕ) (pretrained : Bool) : FactoryOut :=
  ⟨GenMobileNet.init (mobilenetV3Cfg (1 / 2) numClasses inChans), false⟩

/-- `mobilenetv3_075` (`genmobilenet.py:669-674`): loading commented out. -/
def mobilenetv3_075 (numClasses inChans : ℕ) (pretrained : Bool) : FactoryOut :=
  ⟨GenMobileNet.init (mobilenetV3Cfg (3 / 4) numClasses inChans), false⟩

/-- `mobilenetv3_100` (`genmobilenet.py:677-682`): loading commented out. -/
def mobilenetv3_100 (numClasses inChans : ℕ) (pretrained : Bool) : FactoryOut :=
  ⟨GenMobileNet.init (mobilenetV3Cfg 1 numClasses inChans), false⟩

/-- `fbnetc_100` (`genmobilenet.py:685-690`): loads when `pretrained`. -/
def fbnetc_100 (pretrained : Bool) : FactoryOut :=
  ⟨GenMobileNet.init (fbnetcCfg 1 1000), pretrained⟩

/-- `chamnetv1_100` (`genmobilenet.py:693-698`): loading commented out. -/
def chamnetv1_100 (pretrained : Bool) : FactoryOut :=
  ⟨GenMobileNet.init (chamnetV1Cfg 1 1000), false⟩

/-- `chamnetv2_100` (`genmobilenet.py:701-706`): loading commented out. -/
def chamnetv2_100 (pretrained : Bool) : FactoryOut :=
  ⟨GenMobileNet.init (chamnetV2Cfg 1 1000), false⟩

/-- `spnasnet_100` (`genmobilenet.py:709-714`): loads when `pretrained`. -/
def spnasnet_100 (pretrained : Bool) : FactoryOut :=
  ⟨GenMobileNet.init (spnasnetCfg 1 1000), pretrained⟩

/-- The 17 blocks produced by the builder for the MobileNet-V2 definition
at multiplier 1.0, divisor 8, stem 32 (fields: kind, in, mid, out, kernel,
stride, residual, se). -/
def mnv2Blocks : List Blk :=
  [⟨.ds, 32, 32, 16, 3, 1, false, none⟩,
   ⟨.ir, 16, 96, 24, 3, 2, false, none⟩,
   ⟨.ir, 24, 144, 24, 3, 1, true, none⟩,
   ⟨.ir, 24, 144, 32, 3, 2, false, none⟩,
   ⟨.ir, 32, 192, 32, 3, 1, true, none⟩,
   ⟨.ir, 32, 192, 32, 3, 1, true, none⟩,
   ⟨.ir, 32, 192, 64, 3, 2, false, none⟩,
   ⟨.ir, 64, 384, 64, 3, 1, true, none⟩,
   ⟨.ir, 64, 384, 64, 3, 1, true, none⟩,
   ⟨.ir, 64, 384, 64, 3, 1, true, none⟩,
   ⟨.ir, 64, 384, 96, 3, 1, false, none⟩,
   ⟨.ir, 96, 576, 96, 3, 1, true, none⟩,
   ⟨.ir, 96, 576, 96, 3, 1, true, none⟩,
   ⟨.ir, 96, 576, 160, 3, 2, false, none⟩,
   ⟨.ir, 160, 960, 160, 3, 1, true, none⟩,
   ⟨.ir, 160, 960, 160, 3, 1, true, none⟩,
   ⟨.ir, 160, 960, 320, 3, 1, false, none⟩]

/-- The model assembled by `_gen_mobilenet_v2 1.0` with 1000 classes. -/
def mnv2Model : GenMobileNet :=
  ⟨⟨3, 32, 3, 2, 1, false⟩,
   some ⟨32, BN_MOMENTUM_DEFAULT, BN_EPS_DEFAULT⟩,
   mnv2Blocks, 320, false,
   some ⟨320, 1280, 1, 1, 0, false⟩,
   some ⟨1280, BN_MOMENTUM_DEFAULT, BN_EPS_DEFAULT⟩,
   1280, 1000, 0⟩

lemma convShape_step (inC outC k s p c h w : ℕ) (hk : 2 * p + 1 = k) (hs : 1 ≤ s)
    (hc : c = inC) (hh : 1 ≤ h) (hw : 1 ≤ w) :
    convShape inC outC k s p (c, h, w) =
      some (outC, (h - 1) / s + 1, (w - 1) / s + 1) := by
  subst hc
  have hkh : k ≤ h + 2 * p := by omega
  have hkw : k ≤ w + 2 * p := by omega
  have e1 : h + 2 * p - k = h - 1 := by omega
  have e2 : w + 2 * p - k = w - 1 := by omega
  simp [convShape, convOutDim, hkh, hkw, hs, e1, e2]

lemma convShape_one (inC outC c h w : ℕ) (hc : c = inC) (hh : 1 ≤ h) (hw : 1 ≤ w) :
    convShape inC outC 1 1 0 (c, h, w) = some (outC, h, w) := by
  have e1 : (h - 1) / 1 + 1 = h := by omega
  have e2 : (w - 1) / 1 + 1 = w := by omega
  rw [convShape_step inC outC 1 1 0 c h w (by omega) (by omega) hc hh hw, e1, e2]

lemma div_step_pos (h s : ℕ) : 1 ≤ (h - 1) / s + 1 :=
  Nat.succ_le_succ (Nat.zero_le _)

lemma Blk.shape_step (b : Blk) (c h w : ℕ) (hk : b.kernel % 2 = 1) (hs : 1 ≤ b.stride)
    (hc : c = b.inChs) (hh : 1 ≤ h) (hw : 1 ≤ w) :
    b.shape (c, h, w) =
      some (b.outChs, (h - 1) / b.stride + 1, (w - 1) / b.stride + 1) := by
  have hp : 2 * (b.kernel / 2) + 1 = b.kernel := by omega
  have hh' : 1 ≤ (h - 1) / b.stride + 1 := div_step_pos h b.stride
  have hw' : 1 ≤ (w - 1) / b.stride + 1 := div_step_pos w b.stride
  cases hbk : b.kind with
  | ds =>
    rw [Blk.shape, hbk]
    rw [convShape_step _ _ _ _ _ _ _ _ hp hs hc hh hw, Option.some_bind]
    exact convShape_one _ _ _ _ _ rfl hh' hw'
  | dsa =>
    rw [Blk.shape, hbk]
    rw [convShape_step _ _ _ _ _ _ _ _ hp hs hc hh hw, Option.some_bind]
    exact convShape_one _ _ _ _ _ rfl hh' hw'
  | ir =>
    rw [Blk.shape, hbk]
    rw [convShape_one _ _ _ _ _ hc hh hw, Option.some_bind]
    rw [convShape_step _ _ _ _ _ _ _ _ hp hs rfl hh hw, Option.some_bind]
    exact convShape_one _ _ _ _ _ rfl hh' hw'
  | cn =>
    rw [Blk.shape, hbk]
    exact convShape_step _ _ _ _ _ _ _ _ hp hs hc hh hw

/-- Well-formedness of a block chain starting from `c` input channels:
channels thread, kernels are odd, strides are positive. -/
def wfChainB : ℕ → List Blk → Bool
  | _, [] => true
  | c, b :: bs => (b.inChs == c) && (b.kernel % 2 == 1) && (b.stride != 0) && wfChainB b.outChs bs

/-- Final output channels of a block chain starting from `c`. -/
def chainOut : ℕ → List Blk → ℕ
  | c, [] => c
  | _, b :: bs => chainOut b.outChs bs

lemma bodyShape_chain : ∀ (bs : List Blk) (c h w : ℕ), wfChainB c bs = true →
    1 ≤ h → 1 ≤ w →
    ∃ h' w', bodyShape bs (c, h, w) = some (chainOut c bs, h', w') ∧ 1 ≤ h' ∧ 1 ≤ w' := by
  intro bs
  induction bs with
  | nil =>
    intro c h w _ hh hw
    exact ⟨h, w, rfl, hh, hw⟩
  | cons b bs ih =>
    intro c h w hwf hh hw
    simp only [wfChainB, Bool.and_eq_true, beq_iff_eq, bne_iff_ne, ne_eq] at hwf
    obtain ⟨⟨⟨hin, hk⟩, hst⟩, hrest⟩ := hwf
    have hs : 1 ≤ b.stride := Nat.one_le_iff_ne_zero.mpr hst
    obtain ⟨h', w', hbody, hh', hw'⟩ :=
      ih b.outChs ((h - 1) / b.stride + 1) ((w - 1) / b.stride + 1) hrest
        (div_step_pos h b.stride) (div_step_pos w b.stride)
    refine ⟨h', w', ?_, hh', hw'⟩
    rw [bodyShape, Blk.shape_step b c h w hk hs hin.symm hh hw, Option.some_bind]
    rw [hbody]
    rfl

/-- The decode-and-build prefix of `GenMobileNet.init`: the flat block
list and the body's final output channel count. -/
def buildArtifacts (cfg : GenMobileNetCfg) : Except BuildError (List Blk × ℕ) :=
  match decodeArch cfg.blockArgs with
  | .error e => .error e
  | .ok specs => buildBlocksGo (builderCfgOf cfg) (flattenSpecs specs) (stemChs cfg)

lemma init_ok_assemble (cfg : GenMobileNetCfg) (m : GenMobileNet)
    (hinit : GenMobileNet.init cfg = Except.ok m) :
    ∃ blocks bodyChs,
      buildArtifacts cfg = Except.ok (blocks, bodyChs) ∧
      assembleHead cfg blocks bodyChs = Except.ok m := by
  unfold GenMobileNet.init at hinit
  split at hinit
  next e hdec => exact absurd hinit (by simp)
  next specs hdec =>
    split at hinit
    next e hbuild => exact absurd hinit (by simp)
    next blocks bodyChs hbuild =>
      refine ⟨blocks, bodyChs, ?_, hinit⟩
      unfold buildArtifacts
      rw [hdec]
      exact hbuild

/-- Characterization of every successfully assembled model: the stem is
always a kernel-3 stride-2 convolution to the resolved stem width with
bias iff folded-BN, `bn1` exists unless folded-BN, and the head follows
one of the two policy branches of `genmobilenet.py:89-99`. -/
lemma init_ok_cases (cfg : GenMobileNetCfg) (m : GenMobileNet)
    (hinit : GenMobileNet.init cfg = Except.ok m) :
    ∃ blocks bodyChs,
      ((noHeadPolicy cfg.headConv = true ∧ bodyChs = cfg.numFeatures ∧
        m = ⟨⟨cfg.inChans, stemChs cfg, 3, 2, 1, cfg.foldedBn⟩,
             (if cfg.foldedBn then none else some ⟨stemChs cfg, cfg.bnMomentum, cfg.bnEps⟩),
             blocks, bodyChs, false, none, none,
             cfg.numFeatures, cfg.numClasses, cfg.dropRate⟩)
      ∨ (noHeadPolicy cfg.headConv = false ∧
        m = ⟨⟨cfg.inChans, stemChs cfg, 3, 2, 1, cfg.foldedBn⟩,
             (if cfg.foldedBn then none else some ⟨stemChs cfg, cfg.bnMomentum, cfg.bnEps⟩),
             blocks, bodyChs, cfg.headConv == some "efficient",
             some ⟨bodyChs, cfg.numFeatures, 1, 1, 0,
               cfg.foldedBn && !(cfg.headConv == some "efficient")⟩,
             (if cfg.foldedBn || (cfg.headConv == some "efficient") then none
              else some ⟨cfg.numFeatures, cfg.bnMomentum, cfg.bnEps⟩),
             cfg.numFeatures, cfg.numClasses, cfg.dropRate⟩)) := by
  obtain ⟨blocks, bodyChs, _, ha⟩ := init_ok_assemble cfg m hinit
  refine ⟨blocks, bodyChs, ?_⟩
  unfold assembleHead at ha
  by_cases hnh : noHeadPolicy cfg.headConv = true
  · rw [hnh] at ha
    simp only [if_true] at ha
    by_cases heq : bodyChs = cfg.numFeatures
    · rw [if_pos heq] at ha
      injection ha with h
      exact Or.inl ⟨hnh, heq, h.symm⟩
    · rw [if_neg heq] at ha
      exact absurd ha (by simp)
  · have hnh' : noHeadPolicy cfg.headConv = false := by
      cases h : noHeadPolicy cfg.headConv
      · rfl
      · exact absurd h hnh
    rw [hnh'] at ha
    simp only [Bool.false_eq_true, if_false] at ha
    injection ha with h
    exact Or.inr ⟨hnh', h.symm⟩

lemma init_eq (cfg : GenMobileNetCfg) (blocks : List Blk) (bodyChs : ℕ)
    (hart : buildArtifacts cfg = Except.ok (blocks, bodyChs)) :
    GenMobileNet.init cfg = assembleHead cfg blocks bodyChs := by
  unfold buildArtifacts at hart
  unfold GenMobileNet.init
  split at hart
  next e hdec => exact absurd hart (by simp)
  next specs hdec => simp only [hdec, hart]

lemma assembleHead_mismatch (cfg : GenMobileNetCfg) (blocks : List Blk) (bodyChs : ℕ)
    (hhead : noHeadPolicy cfg.headConv = true) (hne : bodyChs ≠ cfg.numFeatures) :
    assembleHead cfg blocks bodyChs = Except.error BuildError.configurationMismatch := by
  unfold assembleHead
  rw [hhead]
  simp [hne]

lemma assembleHead_match (cfg : GenMobileNetCfg) (blocks : List Blk) (bodyChs : ℕ)
    (hhead : noHeadPolicy cfg.headConv = true) (heq : bodyChs = cfg.numFeatures) :
    assembleHead cfg blocks bodyChs =
      Except.ok ⟨⟨cfg.inChans, stemChs cfg, 3, 2, 1, cfg.foldedBn⟩,
        (if cfg.foldedBn then none else some ⟨stemChs cfg, cfg.bnMomentum, cfg.bnEps⟩),
        blocks, bodyChs, false, none, none,
        cfg.numFeatures, cfg.numClasses, cfg.dropRate⟩ := by
  unfold assembleHead
  rw [hhead]
  simp [heq]

lemma mnv2_headShape (h w : ℕ) (hh : 1 ≤ h) (hw : 1 ≤ w) :
    headShape mnv2Model (320, h, w) = some (1280, 1, 1) := by
  show ((convShape 320 1280 1 1 0 (320, h, w)).bind
      (bnShape (some ⟨1280, BN_MOMENTUM_DEFAULT, BN_EPS_DEFAULT⟩))).bind poolShape =
    some (1280, 1, 1)
  rw [convShape_one 320 1280 320 h w rfl hh hw, Option.some_bind]
  show poolShape (1280, h, w) = some (1280, 1, 1)
  simp [poolShape, hh, hw]

/-- A one-stage architecture used for concrete witnesses. -/
def wArch : List (List String) := [["ds_r1_k3_s1_c8"]]

/-- The single block built from `wArch` at multiplier 1. -/
def wBlk : Blk := ⟨.ds, 8, 8, 8, 3, 1, true, none⟩

/-- Witness configuration: default head, stem 8, 16 features. -/
def wCfgDefault : GenMobileNetCfg :=
  { defaultCfg wArch with stemSize := 8, numFeatures := 16 }

/-- Witness configuration: efficient head with folded batch-norm. -/
def wCfgEff : GenMobileNetCfg :=
  { wCfgDefault with headConv := some "efficient", foldedBn := true }

/-- The model assembled from `wCfgEff`. -/
def wModelEff : GenMobileNet :=
  ⟨⟨3, 8, 3, 2, 1, true⟩, none, [wBlk], 8, true,
    some ⟨8, 16, 1, 1, 0, false⟩, none, 16, 1000, 0⟩

/-- Witness configuration: `head_conv='none'` with matching feature width. -/
def wCfgNone : GenMobileNetCfg :=
  { defaultCfg wArch with stemSize := 8, numFeatures := 8, headConv := some "none" }

/-- Witness configuration: `head_conv='none'` with mismatched feature width
(the default 1280 against body output 8). -/
def wCfgNoneBad : GenMobileNetCfg :=
  { defaultCfg wArch with stemSize := 8, headConv := some "none" }

/-- Witness configuration: empty-string head policy, matching width. -/
def wCfgEmpty : GenMobileNetCfg :=
  { defaultCfg wArch with stemSize := 8, numFeatures := 8, headConv := some "" }

/-- Witness configuration: empty-string head policy, mismatched width. -/
def wCfgEmptyBad : GenMobileNetCfg :=
  { defaultCfg wArch with stemSize := 8, headConv := some "" }

/-- C1: under the no-head policy (`head_conv` absent/falsy or `'none'`),
construction fails at construction time with the configuration-mismatch
error exactly when the body's final output channel count differs from
`num_features`; when they agree, construction succeeds and no head
convolution is built (`genmobilenet.py:89-92`). -/
theorem head_none_config_check (cfg : GenMobileNetCfg) (blocks : List Blk) (bodyChs : ℕ)
    (hhead : noHeadPolicy cfg.headConv = true)
    (hart : buildArtifacts cfg = Except.ok (blocks, bodyChs)) :
    (bodyChs ≠ cfg.numFeatures →
      GenMobileNet.init cfg = Except.error BuildError.configurationMismatch)
    ∧ (bodyChs = cfg.numFeatures →
      ∃ m, GenMobileNet.init cfg = Except.ok m ∧ m.convHead = none ∧ m.efficientHead = false) := by
  have hi := init_eq cfg blocks bodyChs hart
  constructor
  · intro hne
    rw [hi]
    exact assembleHead_mismatch cfg blocks bodyChs hhead hne
  · intro heq
    rw [hi, assembleHead_match cfg blocks bodyChs hhead heq]
    exact ⟨_, rfl, rfl, rfl⟩

/-- Witness for C1 at concrete configurations: with body output 8 and the
default 1280 features construction fails; with features 8 it succeeds
head-less. -/
theorem head_none_config_check_witness :
    (GenMobileNet.init wCfgNoneBad = Except.error BuildError.configurationMismatch)
    ∧ (∃ m, GenMobileNet.init wCfgNone = Except.ok m ∧
        m.convHead = none ∧ m.efficientHead = false) :=
  ⟨(head_none_config_check wCfgNoneBad [wBlk] 8 rfl rfl).1 (by decide),
   (head_none_config_check wCfgNone [wBlk] 8 rfl rfl).2 rfl⟩

/-- C10: any falsy `head_conv` (Python `None` or the empty string), not
only the literal `'none'`, selects the no-head policy: no head convolution
is constructed and the body-output-equals-feature-width check is enforced
(`genmobilenet.py:89`, `if not head_conv or head_conv == 'none'`). -/
theorem falsy_head_conv_selects_none (cfg : GenMobileNetCfg) (blocks : List Blk) (bodyChs : ℕ)
    (hfalsy : cfg.headConv = none ∨ cfg.headConv = some "")
    (hart : buildArtifacts cfg = Except.ok (blocks, bodyChs)) :
    noHeadPolicy cfg.headConv = true
    ∧ (bodyChs = cfg.numFeatures →
        ∃ m, GenMobileNet.init cfg = Except.ok m ∧ m.convHead = none ∧ m.efficientHead = false)
    ∧ (bodyChs ≠ cfg.numFeatures →
        GenMobileNet.init cfg = Except.error BuildError.configurationMismatch) := by
  have hhead : noHeadPolicy cfg.headConv = true := by
    rcases hfalsy with h | h <;> rw [h] <;> rfl
  have hi := init_eq cfg blocks bodyChs hart
  refine ⟨hhead, ?_, ?_⟩
  · intro heq
    rw [hi, assembleHead_match cfg blocks bodyChs hhead heq]
    exact ⟨_, rfl, rfl, rfl⟩
  · intro hne
    rw [hi]
    exact assembleHead_mismatch cfg blocks bodyChs hhead hne

/-- Witness for C10 at the empty-string head policy. -/
theorem falsy_head_conv_selects_none_witness :
    (∃ m, GenMobileNet.init wCfgEmpty = Except.ok m ∧
        m.convHead = none ∧ m.efficientHead = false)
    ∧ (GenMobileNet.init wCfgEmptyBad = Except.error BuildError.configurationMismatch) :=
  ⟨(falsy_head_conv_selects_none wCfgEmpty [wBlk] 8 (Or.inr rfl) rfl).2.1 rfl,
   (falsy_head_conv_selects_none wCfgEmptyBad [wBlk] 8 (Or.inr rfl) rfl).2.2 (by decide)⟩

/-- C4: with head policy `'efficient'` the feature pipeline applies, in
order, global-average-pool, then the 1×1 head convolution to the feature
width, then the activation, and no batch-norm layer exists in the head
(`bn2` is not constructed): `genmobilenet.py:94-99` and `115-119`. -/
theorem efficient_head_ordering (cfg : GenMobileNetCfg) (m : GenMobileNet)
    (hinit : GenMobileNet.init cfg = Except.ok m)
    (heff : cfg.headConv = some "efficient") :
    GenMobileNet.headOps m = [LayerOp.pool, LayerOp.conv, LayerOp.act]
    ∧ m.bn2 = none
    ∧ LayerOp.bn ∉ GenMobileNet.headOps m
    ∧ (∃ cv, m.convHead = some cv ∧ cv.kernel = 1 ∧ cv.outChs = cfg.numFeatures) := by
  obtain ⟨blocks, bodyChs, hcase⟩ := init_ok_cases cfg m hinit
  have hnh : noHeadPolicy cfg.headConv = false := by rw [heff]; rfl
  have heb : (cfg.headConv == some "efficient") = true := by rw [heff]; rfl
  rcases hcase with ⟨ht, _, _⟩ | ⟨_, hm⟩
  · rw [hnh] at ht; exact absurd ht (by simp)
  · subst hm
    refine ⟨?_, ?_, ?_, ⟨_, rfl, rfl, rfl⟩⟩
    · simp [GenMobileNet.headOps, heb]
    · simp [heb]
    · simp [GenMobileNet.headOps, heb]

/-- Witness for C4 at the concrete efficient-head configuration. -/
theorem efficient_head_ordering_witness :
    GenMobileNet.headOps wModelEff = [LayerOp.pool, LayerOp.conv, LayerOp.act]
    ∧ wModelEff.bn2 = none
    ∧ LayerOp.bn ∉ GenMobileNet.headOps wModelEff
    ∧ (∃ cv, wModelEff.convHead = some cv ∧ cv.kernel = 1 ∧ cv.outChs = wCfgEff.numFeatures) :=
  efficient_head_ordering wCfgEff wModelEff rfl rfl

/-- C9: for any successful construction with a real head, the head
convolution's bias is `folded_bn and not efficient_head`
(`genmobilenet.py:97`); in particular with head policy `'efficient'` the
bias is `false` even when folded-batch-norm mode is enabled, so folded BN
parameters can never be fused into the efficient head convolution. -/
theorem head_conv_bias_formula (cfg : GenMobileNetCfg) (m : GenMobileNet)
    (hinit : GenMobileNet.init cfg = Except.ok m)
    (hnot : noHeadPolicy cfg.headConv = false) :
    (∃ cv, m.convHead = some cv ∧ cv.bias = (cfg.foldedBn && !m.efficientHead))
    ∧ (cfg.headConv = some "efficient" →
        m.efficientHead = true ∧ ∃ cv, m.convHead = some cv ∧ cv.bias = false) := by
  obtain ⟨blocks, bodyChs, hcase⟩ := init_ok_cases cfg m hinit
  rcases hcase with ⟨ht, _, _⟩ | ⟨_, hm⟩
  · rw [hnot] at ht; exact absurd ht (by simp)
  · subst hm
    constructor
    · exact ⟨_, rfl, rfl⟩
    · intro heff
      have heb : (cfg.headConv == some "efficient") = true := by rw [heff]; rfl
      refine ⟨heb, _, rfl, ?_⟩
      simp [heb]

/-- Witness for C9: with folded BN and the efficient head, the concrete
head convolution carries no bias. -/
theorem head_conv_bias_formula_witness :
    (∃ cv, wModelEff.convHead = some cv ∧
      cv.bias = (wCfgEff.foldedBn && !wModelEff.efficientHead))
    ∧ (wModelEff.efficientHead = true ∧
      ∃ cv, wModelEff.convHead = some cv ∧ cv.bias = false) :=
  ⟨(head_conv_bias_formula wCfgEff wModelEff rfl rfl).1,
   (head_conv_bias_formula wCfgEff wModelEff rfl rfl).2 rfl⟩

/-- C5: the stem of every assembled network is one convolution with
kernel 3, stride 2 and output channels `resolve(stem_size, ...)`, followed
by batch-norm and activation, except that in folded-batch-norm mode the
batch-norm layer is omitted (`bn1 = None`, skipped in `features`) and the
stem convolution carries a bias (`genmobilenet.py:75-80`, `110-113`). -/
theorem stem_structure (cfg : GenMobileNetCfg) (m : GenMobileNet)
    (hinit : GenMobileNet.init cfg = Except.ok m) :
    m.convStem = ⟨cfg.inChans,
        round_channels cfg.stemSize cfg.depthMultiplier cfg.depthDivisor cfg.minDepth,
        3, 2, 1, cfg.foldedBn⟩
    ∧ m.bn1 = (if cfg.foldedBn then none
        else some ⟨round_channels cfg.stemSize cfg.depthMultiplier cfg.depthDivisor cfg.minDepth,
          cfg.bnMomentum, cfg.bnEps⟩)
    ∧ GenMobileNet.stemOps m =
        (if cfg.foldedBn then [LayerOp.conv, LayerOp.act]
         else [LayerOp.conv, LayerOp.bn, LayerOp.act]) := by
  obtain ⟨blocks, bodyChs, hcase⟩ := init_ok_cases cfg m hinit
  rcases hcase with ⟨_, _, hm⟩ | ⟨_, hm⟩ <;> subst hm <;>
    refine ⟨rfl, rfl, ?_⟩ <;>
    cases hf : cfg.foldedBn <;> simp [GenMobileNet.stemOps, hf]

/-- Witness for C5 at the folded-BN efficient-head configuration. -/
theorem stem_structure_witness :
    wModelEff.convStem = ⟨wCfgEff.inChans,
        round_channels wCfgEff.stemSize wCfgEff.depthMultiplier wCfgEff.depthDivisor
          wCfgEff.minDepth, 3, 2, 1, wCfgEff.foldedBn⟩
    ∧ wModelEff.bn1 = (if wCfgEff.foldedBn then none
        else some ⟨round_channels wCfgEff.stemSize wCfgEff.depthMultiplier wCfgEff.depthDivisor
          wCfgEff.minDepth, wCfgEff.bnMomentum, wCfgEff.bnEps⟩)
    ∧ GenMobileNet.stemOps wModelEff =
        (if wCfgEff.foldedBn then [LayerOp.conv, LayerOp.act]
         else [LayerOp.conv, LayerOp.bn, LayerOp.act]) :=
  stem_structure wCfgEff wModelEff rfl

/-- C3: the channel resolver at multiplier exactly 1.0 with no minimum
returns the nominal count unchanged for every divisor (the identity fast
path skips divisor rounding), and consequently the stem channel count of
any successfully constructed model equals `stem_size` whenever
`depth_multiplier == 1.0`. -/
theorem resolve_identity_at_one :
    (∀ nominal divisor : ℕ, round_channels nominal 1 divisor none = nominal)
    ∧ (∀ (cfg : GenMobileNetCfg) (m : GenMobileNet), cfg.depthMultiplier = 1 →
        GenMobileNet.init cfg = Except.ok m → m.convStem.outChs = cfg.stemSize) := by
  constructor
  · intro nominal divisor
    simp [round_channels]
  · intro cfg m hmult hinit
    obtain ⟨blocks, bodyChs, hcase⟩ := init_ok_cases cfg m hinit
    rcases hcase with ⟨_, _, hm⟩ | ⟨_, hm⟩ <;> subst hm <;>
      · show stemChs cfg = cfg.stemSize
        unfold stemChs
        rw [hmult]
        simp [round_channels]

/-- Witness for C3: identity at a concrete nominal/divisor pair, and a
concrete multiplier-1 model whose stem width equals its `stem_size`. -/
theorem resolve_identity_at_one_witness :
    round_channels 24 1 8 none = 24 ∧ wModelEff.convStem.outChs = wCfgEff.stemSize :=
  ⟨resolve_identity_at_one.1 24 8, resolve_identity_at_one.2 wCfgEff wModelEff rfl rfl⟩

/-- C6: batch-norm hyperparameters are resolved once at
model-construction entry by `_resolve_bn_params` (`genmobilenet.py:146-160`):
with `bn_tf` set the defaults become momentum `1 - 0.99` and eps `1e-3`,
otherwise the framework defaults apply; an explicitly supplied momentum or
eps always overrides the chosen default, independently of `bn_tf`. -/
theorem bn_param_resolution :
    _resolve_bn_params true none none = (1 - 99 / 100, 1 / 1000)
    ∧ _resolve_bn_params false none none = (BN_MOMENTUM_DEFAULT, BN_EPS_DEFAULT)
    ∧ (∀ (tf : Bool) (mv : ℚ) (eo : Option ℚ), (_resolve_bn_params tf (some mv) eo).1 = mv)
    ∧ (∀ (tf : Bool) (mo : Option ℚ) (ev : ℚ), (_resolve_bn_params tf mo (some ev)).2 = ev) := by
  refine ⟨rfl, rfl, ?_, ?_⟩
  · intro tf mv eo
    rfl
  · intro tf mo ev
    rfl

/-- C8: construction is deterministic.  Two builds of the same
configuration agree on success/failure, on the produced error, and on the
entire architecture (layer sequence and hyperparameters), for any two
framework RNG streams; only the allocated weight samples may differ
(`GenMobileNet.__init__` with `_initialize_weight_goog`,
`genmobilenet.py:66-107` and `163-178`). -/
theorem construction_deterministic (cfg : GenMobileNetCfg) (r₁ r₂ : ℕ → ℤ) :
    exceptOk (GenMobileNet.build cfg r₁) = exceptOk (GenMobileNet.build cfg r₂)
    ∧ builtArch (GenMobileNet.build cfg r₁) = builtArch (GenMobileNet.build cfg r₂)
    ∧ builtErr (GenMobileNet.build cfg r₁) = builtErr (GenMobileNet.build cfg r₂) := by
  cases h : GenMobileNet.init cfg <;>
    simp [GenMobileNet.build, h, exceptOk, builtArch, builtErr]

/-- Counterexample to C7 as stated: `mobilenetv2_100` accepts
`pretrained=True` but never invokes the weight-loading path (the loading
branch is commented out at `genmobilenet.py:656-657`). -/
theorem mobilenetv2_pretrained_not_loaded :
    (mobilenetv2_100 true).loadedPretrained = false := rfl

/-- C7 (amended): every public factory accepts the optional `pretrained`
flag, and the mnasnet/semnasnet/tflite/mnasnet-small/fbnetc/spnasnet
factories load pretrained weights exactly when the flag is set, while the
mobilenetv1/v2/v3 and chamnet factories accept the flag but never load
(their loading code is commented out in the source). -/
theorem factory_pretrained_flag (p : Bool) :
    (mnasnet_050 p).loadedPretrained = p
    ∧ (mnasnet_075 p).loadedPretrained = p
    ∧ (mnasnet_100 p).loadedPretrained = p
    ∧ (tflite_mnasnet_100 p).loadedPretrained = p
    ∧ (mnasnet_140 p).loadedPretrained = p
    ∧ (semnasnet_050 p).loadedPretrained = p
    ∧ (semnasnet_075 p).loadedPretrained = p
    ∧ (semnasnet_100 p).loadedPretrained = p
    ∧ (tflite_semnasnet_100 p).loadedPretrained = p
    ∧ (semnasnet_140 p).loadedPretrained = p
    ∧ (mnasnet_small p).loadedPretrained = p
    ∧ (fbnetc_100 p).loadedPretrained = p
    ∧ (spnasnet_100 p).loadedPretrained = p
    ∧ (mobilenetv1_100 p).loadedPretrained = false
    ∧ (mobilenetv2_100 p).loadedPretrained = false
    ∧ (mobilenetv3_050 1000 3 p).loadedPretrained = false
    ∧ (mobilenetv3_075 1000 3 p).loadedPretrained = false
    ∧ (mobilenetv3_100 1000 3 p).loadedPretrained = false
    ∧ (chamnetv1_100 p).loadedPretrained = false
    ∧ (chamnetv2_100 p).loadedPretrained = false :=
  ⟨rfl, rfl, rfl, rfl, rfl, rfl, rfl, rfl, rfl, rfl,
   rfl, rfl, rfl, rfl, rfl, rfl, rfl, rfl, rfl, rfl⟩

/-- C2: building the MobileNet-V2 architecture definition with depth
multiplier 1.0, divisor 8 and stem 32 — what the factory `mobilenetv2_100`
does — yields a flattened sequence of exactly 17 blocks with final body
output channels 320, and the resulting network maps any batched image
input `[n, 3, h, w]` (nonempty spatial extent) to a classification output
of shape `[n, 1000]` with `num_classes = 1000`
(`_gen_mobilenet_v2`, `genmobilenet.py:334-361`; `GenMobileNet.forward`,
`genmobilenet.py:129-134`). -/
theorem mobilenet_v2_end_to_end (n h w : ℕ) (hh : 1 ≤ h) (hw : 1 ≤ w) :
    ∃ m, _gen_mobilenet_v2 1 1000 = Except.ok m
      ∧ m.blocks.length = 17
      ∧ m.bodyOutChs = 320
      ∧ forwardShape m n 3 h w = some (n, 1000) := by
  refine ⟨mnv2Model, by with_unfolding_all rfl, rfl, rfl, ?_⟩
  obtain ⟨h3, w3, hbody, hh3, hw3⟩ :=
    bodyShape_chain mnv2Blocks 32 ((h - 1) / 2 + 1) ((w - 1) / 2 + 1) (by decide)
      (div_step_pos h 2) (div_step_pos w 2)
  have hchain : chainOut 32 mnv2Blocks = 320 := by decide
  rw [hchain] at hbody
  have hfeat : featuresShape mnv2Model (3, h, w) = some (1280, 1, 1) := by
    unfold featuresShape
    show (convShape 3 32 3 2 1 (3, h, w)).bind (fun x1 =>
        (bnShape (some ⟨32, BN_MOMENTUM_DEFAULT, BN_EPS_DEFAULT⟩) x1).bind (fun x2 =>
          (bodyShape mnv2Blocks x2).bind (headShape mnv2Model))) = some (1280, 1, 1)
    rw [convShape_step 3 32 3 2 1 3 h w (by omega) (by omega) rfl hh hw, Option.some_bind]
    show (bodyShape mnv2Blocks (32, (h - 1) / 2 + 1, (w - 1) / 2 + 1)).bind
        (headShape mnv2Model) = some (1280, 1, 1)
    rw [hbody, Option.some_bind]
    exact mnv2_headShape h3 w3 hh3 hw3
  unfold forwardShape
  rw [hfeat, Option.some_bind]
  rfl

/-- Witness for C2 at a concrete batched input `[2, 3, 224, 224]`. -/
theorem mobilenet_v2_end_to_end_witness :
    ∃ m, _gen_mobilenet_v2 1 1000 = Except.ok m
      ∧ m.blocks.length = 17
      ∧ m.bodyOutChs = 320
      ∧ forwardShape m 2 3 224 224 = some (2, 1000) :=
  mobilenet_v2_end_to_end 2 224 224 (by decide) (by decide)
